import Mathlib

/-!
Verification development for the shopify-event-processor repository.

The repository ships the type layer of its throttled GraphQL execution
stack (`src/src/types/errors.types.ts`: `ThrottlingConfig`,
`ThrottlingContext`, `RateLimitInfo`, `ThrottleStatus`,
`ThrottlingResult`, and the `IThrottlingService` interface) together with
the webhook dispatch layer (`src/src/webhooks/services/index.ts`) and the
webhook management service (`src/src/services/webhook.service.ts`).

The concrete implementation of `IThrottlingService`
(`executeWithThrottling`, `calculateBackoffDelay`, `shouldRetry`,
`parseRateLimitHeaders`) is not part of the source tree; only its
interface, types and the specification describe it.  Those operations are
therefore modelled from the specification (sections 4.1-4.4), each marked
`Modelled from the spec:` in its doc comment.  Millisecond delays and
cost figures are modelled as rationals; the random jitter source and the
asynchronous operation under retry are passed as explicit parameters.
-/

/-- Shopify throttle status snapshot, from `ThrottleStatus` in
`src/src/types/errors.types.ts` (lines 103-107). -/
structure ThrottleStatus where
  maximumAvailable : ℚ
  currentlyAvailable : ℚ
  restoreRate : ℚ
deriving DecidableEq, Repr

/-- Rate-limit information parsed from a response, from `RateLimitInfo` in
`src/src/types/errors.types.ts` (lines 97-101). -/
structure RateLimitInfo where
  requestedQueryCost : ℚ
  actualQueryCost : ℚ
  throttleStatus : ThrottleStatus
deriving DecidableEq, Repr

/-- Throttling configuration, from `ThrottlingConfig` in
`src/src/types/errors.types.ts` (lines 117-126). -/
structure ThrottlingConfig where
  enabled : Bool
  maxRetries : ℕ
  baseDelay : ℚ
  maxDelay : ℚ
  backoffMultiplier : ℚ
  jitter : Bool
  retryableStatusCodes : List ℕ
  respectShopifyRateLimits : Bool
deriving DecidableEq, Repr

/-- Modelled from the spec: the error taxonomy of section 7 (Network,
RemoteThrottle, HTTP status errors, Validation, Auth, Unknown) used by the
Retry Policy of section 4.3.  The implementation of `IThrottlingService`
is absent from the source tree. -/
inductive ErrorKind where
  | network
  | http (status : ℕ)
  | throttle
  | validation
  | auth
  | unknown
deriving DecidableEq, Repr

/-- Modelled from the spec: a failure surfaced by one attempt of the
operation, carrying the rate-limit information parsed from the failing
response when present (section 4.4 step 2d). -/
structure OpError where
  kind : ErrorKind
  rateLimitInfo : Option RateLimitInfo
deriving DecidableEq, Repr

/-- Outcome of one full executor invocation, from `ThrottlingResult<T>` in
`src/src/types/errors.types.ts` (lines 135-142). -/
structure ThrottlingResult (T : Type) where
  success : Bool
  data : Option T
  error : Option OpError
  rateLimitInfo : Option RateLimitInfo
  retryCount : ℕ
  totalDelay : ℚ

/-- Modelled from the spec: the Backoff Calculator of section 4.1.
`min(config.maxDelay, config.baseDelay * config.backoffMultiplier ^
retryCount)`, multiplied by the random jitter factor `j` when
`config.jitter` is enabled.  The uniformly random factor in `[0.5, 1.0]`
is passed in as the explicit parameter `j`. -/
def calculateBackoffDelay (retryCount : ℕ) (config : ThrottlingConfig) (j : ℚ) : ℚ :=
  let base := min config.maxDelay (config.baseDelay * config.backoffMultiplier ^ retryCount)
  if config.jitter then base * j else base

/-- Modelled from the spec: the Retry Policy of section 4.3.  Returns
false immediately when `retryCount >= config.maxRetries` or the config is
disabled; otherwise network failures are retryable, HTTP failures are
retryable when their status is in `config.retryableStatusCodes`, a remote
throttle signal is retryable when `config.respectShopifyRateLimits` holds
and `currentlyAvailable < requestedQueryCost`, and everything else
(validation, auth, unknown) is not retryable. -/
def shouldRetry (e : OpError) (retryCount : ℕ) (config : ThrottlingConfig) : Bool :=
  if config.maxRetries ≤ retryCount then false
  else if !config.enabled then false
  else
    match e.kind with
    | .network => true
    | .http s => config.retryableStatusCodes.contains s
    | .throttle =>
      match e.rateLimitInfo with
      | some info =>
        config.respectShopifyRateLimits &&
          decide (info.throttleStatus.currentlyAvailable < info.requestedQueryCost)
      | none => false
    | .validation => false
    | .auth => false
    | .unknown => false

/-- Modelled from the spec: the wait before the next attempt (section 4.4
step 2d).  The exponential backoff delay, raised to the time (in
milliseconds) the remote bucket needs to refill the requested cost when a
`RateLimitInfo` was parsed from the failure, remote rate limits are
respected, and the remaining budget is insufficient — the remote limiter
is authoritative when both disagree. -/
def computeWaitDelay (e : OpError) (retryCount : ℕ) (config : ThrottlingConfig) (j : ℚ) : ℚ :=
  let backoff := calculateBackoffDelay retryCount config j
  match e.rateLimitInfo with
  | some info =>
    if config.respectShopifyRateLimits
        ∧ info.throttleStatus.currentlyAvailable < info.requestedQueryCost then
      max backoff
        ((info.requestedQueryCost - info.throttleStatus.currentlyAvailable)
          / info.throttleStatus.restoreRate * 1000)
    else backoff
  | none => backoff

/-- Modelled from the spec: outcome of one attempt of the asynchronous
operation (section 6, "Operation callback"): either a value together with
any rate-limit information surfaced by the response, or a failure. -/
inductive OpOutcome (T : Type) where
  | success (d : T) (info : Option RateLimitInfo)
  | failure (e : OpError)

/-- Modelled from the spec: the attempt loop of the Throttling Executor
(section 4.4 step 2), instrumented for verification.  `op i` is attempt
number `i` (0-indexed), `js i` the jitter factor drawn for the sleep after
attempt `i`, `i` the current attempt index and `acc` the accumulated
`totalDelay`.  Besides the `ThrottlingResult` the model returns the list
of sleep durations performed and the number of attempts of the operation,
so that the resource bounds of section 4.4 step 3 are observable. -/
def execAux {T : Type} (op : ℕ → OpOutcome T) (js : ℕ → ℚ) (config : ThrottlingConfig)
    (i : ℕ) (acc : ℚ) : ThrottlingResult T × List ℚ × ℕ :=
  match op i with
  | .success d info => (⟨true, some d, none, info, i, acc⟩, [], 1)
  | .failure e =>
    if h : shouldRetry e i config = true then
      let d := computeWaitDelay e i config (js i)
      let rec' := execAux op js config (i + 1) (acc + d)
      (rec'.1, d :: rec'.2.1, rec'.2.2 + 1)
    else (⟨false, none, some e, e.rateLimitInfo, i, acc⟩, [], 1)
termination_by config.maxRetries + 1 - i
decreasing_by
  have hlt : i < config.maxRetries := by
    by_contra hge
    have hle : config.maxRetries ≤ i := Nat.le_of_not_lt hge
    unfold shouldRetry at h
    rw [if_pos hle] at h
    exact Bool.false_ne_true h
  omega

/-- Modelled from the spec: `executeWithThrottling` of section 4.4,
entered at attempt index 0 with zero accumulated delay.  The effective
(already merged) configuration is passed in. -/
def executeWithThrottling {T : Type} (op : ℕ → OpOutcome T) (js : ℕ → ℚ)
    (config : ThrottlingConfig) : ThrottlingResult T × List ℚ × ℕ :=
  execAux op js config 0 0

/-- Fixed sample configuration used by concrete witnesses: the canonical
defaults of section 8 (`maxRetries 3`, `baseDelay 100`, `maxDelay 2000`,
`backoffMultiplier 2`, no jitter, canonical retryable status codes). -/
def sampleConfig : ThrottlingConfig :=
  ⟨true, 3, 100, 2000, 2, false, [429, 500, 502, 503, 504], true⟩

/-- Concrete remote-throttle scenario of section 8: `currentlyAvailable =
0`, `restoreRate = 50`, `requestedQueryCost = 100`. -/
def throttleInfoScenario : RateLimitInfo := ⟨100, 100, ⟨1000, 0, 50⟩⟩

/-- The failure carrying the remote-throttle scenario. -/
def throttleErrScenario : OpError := ⟨.throttle, some throttleInfoScenario⟩

/-- Modelled from the spec: input to the Rate-Limit Parser of section 4.2
— either raw HTTP response headers (string key/value pairs) or the cost
block of a GraphQL response's extensions, whose numeric fields may each
be absent.  The header key names are not fixed by the spec; the model
uses one key per numeric field of `RateLimitInfo`. -/
inductive RateLimitInput where
  | headers (hs : List (String × String))
  | extensions (requestedQueryCost actualQueryCost maximumAvailable
      currentlyAvailable restoreRate : Option ℚ)

/-- Modelled from the spec: parsing one numeric header value; a
non-numeric string yields none (section 4.2). -/
def parseNumField (s : String) : Option ℚ :=
  (s.toNat?).map (fun n => (n : ℚ))

/-- First value stored under key `k`, as a JavaScript header lookup. -/
def lookupHeader (hs : List (String × String)) (k : String) : Option String :=
  (hs.find? (fun p => p.1 == k)).map (fun p => p.2)

/-- Modelled from the spec: the five numeric fields extracted from either
representation, each `none` when missing or failing to parse. -/
def rawRateLimitFields (inp : RateLimitInput) :
    Option ℚ × Option ℚ × Option ℚ × Option ℚ × Option ℚ :=
  match inp with
  | .headers hs =>
    ((lookupHeader hs "x-shopify-requested-query-cost").bind parseNumField,
     (lookupHeader hs "x-shopify-actual-query-cost").bind parseNumField,
     (lookupHeader hs "x-shopify-maximum-available").bind parseNumField,
     (lookupHeader hs "x-shopify-currently-available").bind parseNumField,
     (lookupHeader hs "x-shopify-restore-rate").bind parseNumField)
  | .extensions rq ac mx av rr => (rq, ac, mx, av, rr)

/-- Modelled from the spec: `parseRateLimitHeaders` of section 4.2 —
normalizes either representation to a `RateLimitInfo`, and returns none
(not an error) when rate-limit information is absent or any numeric
field is missing or fails to parse, never a partially populated value. -/
def parseRateLimitHeaders (inp : RateLimitInput) : Option RateLimitInfo :=
  match rawRateLimitFields inp with
  | (some rq, some ac, some mx, some av, some rr) => some ⟨rq, ac, ⟨mx, av, rr⟩⟩
  | _ => none

/-!
Webhook topic constants.  Modelled from the spec: the values of
`WEBHOOK_TOPICS` live in `src/types/index.ts`, which is not part of the
source tree; the spec (section 6) fixes the `entity/action` form, e.g.
`products/create`.
-/
namespace WEBHOOK_TOPICS

def PRODUCTS_CREATE : String := "products/create"

def PRODUCTS_UPDATE : String := "products/update"

def PRODUCTS_DELETE : String := "products/delete"

def ORDERS_CREATE : String := "orders/create"

def ORDERS_UPDATED : String := "orders/updated"

def ORDERS_PAID : String := "orders/paid"

def ORDERS_CANCELLED : String := "orders/cancelled"

def ORDERS_FULFILLED : String := "orders/fulfilled"

def CUSTOMERS_CREATE : String := "customers/create"

def CUSTOMERS_UPDATE : String := "customers/update"

def APP_UNINSTALLED : String := "app/uninstalled"

end WEBHOOK_TOPICS

/-- The slice of `WebhookRequest` read by the handlers of
`src/src/webhooks/services/index.ts`: the webhook topic and shop domain
headers, each possibly absent. -/
structure WebhookRequest where
  webhookTopic : Option String
  webhookShop : Option String

/-- JavaScript `x || 'unknown'` on an optional string: absent or empty
values fall back to `"unknown"`. -/
def orUnknown (s : Option String) : String :=
  match s with
  | none => "unknown"
  | some t => if t = "" then "unknown" else t

/-- The slice of the webhook payload read by the handlers: `data.id`. -/
structure WebhookPayload where
  id : ℕ

/-- Entity object inside a GraphQL body; only presence is inspected by
the handlers (`(result.data.data as any)?.product` and peers). -/
structure EntityData where
  gid : String

/-- GraphQL body: `result.data.data` in the handlers, holding at most one
of the three entities. -/
structure GraphQLData where
  product : Option EntityData
  order : Option EntityData
  customer : Option EntityData

/-- The `result.data` envelope returned by the GraphQL clients. -/
structure GraphQLResponse where
  data : Option GraphQLData

/-- Result of a GraphQL client call (`productClient.getProduct` and
peers): `success` flag, optional response envelope, optional error
message. -/
structure ClientResult where
  success : Bool
  data : Option GraphQLResponse
  error : Option String

/-- A client call either returns a `ClientResult` or throws. -/
inductive FetchOutcome where
  | ok (r : ClientResult)
  | threw (msg : String)

/-- The three GraphQL clients consumed by the handlers
(`src/src/webhooks/services/index.ts` line 2), as oracles from the
requested GID to the call outcome. -/
structure Clients where
  getProduct : String → FetchOutcome
  getOrder : String → FetchOutcome
  getCustomer : String → FetchOutcome

/-- The fields of a `WebhookHandlerResult`'s `data` payload that the
claims inspect: entity id, action, the `synchronized` flag when present,
and the error message when present.  The numeric count fields logged by
the synchronized branches are not modelled. -/
structure HandlerData where
  entityId : ℕ
  action : String
  synchronized : Option Bool
  errorMsg : Option String
deriving DecidableEq, Repr

/-- `WebhookHandlerResult` as produced by every handler: success flag,
message, optional data payload. -/
structure WebhookHandlerResult where
  success : Bool
  message : String
  data : Option HandlerData
deriving DecidableEq, Repr

/-- `ProductWebhookHandler.handleProductCreate`
(`src/src/webhooks/services/index.ts` lines 59-142): fetch the product
via GraphQL; on a successful fetch carrying product data report
`synchronized := true`; when the fetch returns unsuccessfully or without
product data still accept the webhook with `synchronized := false`; when
the fetch throws report failure. -/
def handleProductCreate (getProduct : String → FetchOutcome) (d : WebhookPayload)
    (_shop : String) : WebhookHandlerResult :=
  match getProduct ("gid://shopify/Product/" ++ toString d.id) with
  | .threw msg =>
    ⟨false, "Failed to process product creation webhook",
      some ⟨d.id, "created", none, some msg⟩⟩
  | .ok result =>
    match result.success, result.data with
    | true, some resp =>
      match resp.data with
      | some gd =>
        match gd.product with
        | some _ =>
          ⟨true, "Product creation webhook processed and data synchronized successfully",
            some ⟨d.id, "created", some true, none⟩⟩
        | none =>
          ⟨true, "Product creation webhook processed (data sync failed)",
            some ⟨d.id, "created", some false, none⟩⟩
      | none =>
        ⟨true, "Product creation webhook processed (data sync failed)",
          some ⟨d.id, "created", some false, none⟩⟩
    | _, _ =>
      ⟨true, "Product creation webhook processed (data sync failed)",
        some ⟨d.id, "created", some false, none⟩⟩

/-- `ProductWebhookHandler.handleProductUpdate` (lines 144-229), same
shape as the create handler with `updated` wording. -/
def handleProductUpdate (getProduct : String → FetchOutcome) (d : WebhookPayload)
    (_shop : String) : WebhookHandlerResult :=
  match getProduct ("gid://shopify/Product/" ++ toString d.id) with
  | .threw msg =>
    ⟨false, "Failed to process product update webhook",
      some ⟨d.id, "updated", none, some msg⟩⟩
  | .ok result =>
    match result.success, result.data with
    | true, some resp =>
      match resp.data with
      | some gd =>
        match gd.product with
        | some _ =>
          ⟨true, "Product update webhook processed and data synchronized successfully",
            some ⟨d.id, "updated", some true, none⟩⟩
        | none =>
          ⟨true, "Product update webhook processed (data sync failed)",
            some ⟨d.id, "updated", some false, none⟩⟩
      | none =>
        ⟨true, "Product update webhook processed (data sync failed)",
          some ⟨d.id, "updated", some false, none⟩⟩
    | _, _ =>
      ⟨true, "Product update webhook processed (data sync failed)",
        some ⟨d.id, "updated", some false, none⟩⟩

/-- `ProductWebhookHandler.handleProductDelete` (lines 231-249):
placeholder logic, always succeeds. -/
def handleProductDelete (d : WebhookPayload) (_shop : String) : WebhookHandlerResult :=
  ⟨true, "Product deletion webhook processed successfully",
    some ⟨d.id, "deleted", none, none⟩⟩

/-- `ProductWebhookHandler.handle` (lines 29-57): route on the full topic
string; unsupported product topics yield a structured failure. -/
def productHandle (getProduct : String → FetchOutcome) (d : WebhookPayload)
    (req : WebhookRequest) : WebhookHandlerResult :=
  let topic := orUnknown req.webhookTopic
  let shop := orUnknown req.webhookShop
  if topic = WEBHOOK_TOPICS.PRODUCTS_CREATE then handleProductCreate getProduct d shop
  else if topic = WEBHOOK_TOPICS.PRODUCTS_UPDATE then handleProductUpdate getProduct d shop
  else if topic = WEBHOOK_TOPICS.PRODUCTS_DELETE then handleProductDelete d shop
  else ⟨false, "Unsupported product webhook topic: " ++ topic, none⟩

/-- `OrderWebhookHandler.handleOrderCreate`
(`src/src/webhooks/services/index.ts` lines 290-377), same shape as the
product create handler over the order client. -/
def handleOrderCreate (getOrder : String → FetchOutcome) (d : WebhookPayload)
    (_shop : String) : WebhookHandlerResult :=
  match getOrder ("gid://shopify/Order/" ++ toString d.id) with
  | .threw msg =>
    ⟨false, "Failed to process order creation webhook",
      some ⟨d.id, "created", none, some msg⟩⟩
  | .ok result =>
    match result.success, result.data with
    | true, some resp =>
      match resp.data with
      | some gd =>
        match gd.order with
        | some _ =>
          ⟨true, "Order creation webhook processed and data synchronized successfully",
            some ⟨d.id, "created", some true, none⟩⟩
        | none =>
          ⟨true, "Order creation webhook processed (data sync failed)",
            some ⟨d.id, "created", some false, none⟩⟩
      | none =>
        ⟨true, "Order creation webhook processed (data sync failed)",
          some ⟨d.id, "created", some false, none⟩⟩
    | _, _ =>
      ⟨true, "Order creation webhook processed (data sync failed)",
        some ⟨d.id, "created", some false, none⟩⟩

/-- `OrderWebhookHandler.handleOrderUpdate` (lines 379-397):
placeholder logic, always succeeds. -/
def handleOrderUpdate (d : WebhookPayload) (_shop : String) : WebhookHandlerResult :=
  ⟨true, "Order update webhook processed successfully", some ⟨d.id, "updated", none, none⟩⟩

/-- `OrderWebhookHandler.handleOrderPaid` (lines 399-418): placeholder
logic, always succeeds. -/
def handleOrderPaid (d : WebhookPayload) (_shop : String) : WebhookHandlerResult :=
  ⟨true, "Order paid webhook processed successfully", some ⟨d.id, "paid", none, none⟩⟩

/-- `OrderWebhookHandler.handleOrderCancelled` (lines 420-438):
placeholder logic, always succeeds. -/
def handleOrderCancelled (d : WebhookPayload) (_shop : String) : WebhookHandlerResult :=
  ⟨true, "Order cancellation webhook processed successfully",
    some ⟨d.id, "cancelled", none, none⟩⟩

/-- `OrderWebhookHandler.handleOrderFulfilled` (lines 440-458):
placeholder logic, always succeeds. -/
def handleOrderFulfilled (d : WebhookPayload) (_shop : String) : WebhookHandlerResult :=
  ⟨true, "Order fulfillment webhook processed successfully",
    some ⟨d.id, "fulfilled", none, none⟩⟩

/-- `OrderWebhookHandler.handle` (lines 256-288). -/
def orderHandle (getOrder : String → FetchOutcome) (d : WebhookPayload)
    (req : WebhookRequest) : WebhookHandlerResult :=
  let topic := orUnknown req.webhookTopic
  let shop := orUnknown req.webhookShop
  if topic = WEBHOOK_TOPICS.ORDERS_CREATE then handleOrderCreate getOrder d shop
  else if topic = WEBHOOK_TOPICS.ORDERS_UPDATED then handleOrderUpdate d shop
  else if topic = WEBHOOK_TOPICS.ORDERS_PAID then handleOrderPaid d shop
  else if topic = WEBHOOK_TOPICS.ORDERS_CANCELLED then handleOrderCancelled d shop
  else if topic = WEBHOOK_TOPICS.ORDERS_FULFILLED then handleOrderFulfilled d shop
  else ⟨false, "Unsupported order webhook topic: " ++ topic, none⟩

/-- `CustomerWebhookHandler.handleCustomerCreate`
(`src/src/webhooks/services/index.ts` lines 493-580), same shape as the
product create handler over the customer client. -/
def handleCustomerCreate (getCustomer : String → FetchOutcome) (d : WebhookPayload)
    (_shop : String) : WebhookHandlerResult :=
  match getCustomer ("gid://shopify/Customer/" ++ toString d.id) with
  | .threw msg =>
    ⟨false, "Failed to process customer creation webhook",
      some ⟨d.id, "created", none, some msg⟩⟩
  | .ok result =>
    match result.success, result.data with
    | true, some resp =>
      match resp.data with
      | some gd =>
        match gd.customer with
        | some _ =>
          ⟨true, "Customer creation webhook processed and data synchronized successfully",
            some ⟨d.id, "created", some true, none⟩⟩
        | none =>
          ⟨true, "Customer creation webhook processed (data sync failed)",
            some ⟨d.id, "created", some false, none⟩⟩
      | none =>
        ⟨true, "Customer creation webhook processed (data sync failed)",
          some ⟨d.id, "created", some false, none⟩⟩
    | _, _ =>
      ⟨true, "Customer creation webhook processed (data sync failed)",
        some ⟨d.id, "created", some false, none⟩⟩

/-- `CustomerWebhookHandler.handleCustomerUpdate` (lines 582-601):
placeholder logic, always succeeds. -/
def handleCustomerUpdate (d : WebhookPayload) (_shop : String) : WebhookHandlerResult :=
  ⟨true, "Customer update webhook processed successfully",
    some ⟨d.id, "updated", none, none⟩⟩

/-- `CustomerWebhookHandler.handle` (lines 465-491). -/
def customerHandle (getCustomer : String → FetchOutcome) (d : WebhookPayload)
    (req : WebhookRequest) : WebhookHandlerResult :=
  let topic := orUnknown req.webhookTopic
  let shop := orUnknown req.webhookShop
  if topic = WEBHOOK_TOPICS.CUSTOMERS_CREATE then handleCustomerCreate getCustomer d shop
  else if topic = WEBHOOK_TOPICS.CUSTOMERS_UPDATE then handleCustomerUpdate d shop
  else ⟨false, "Unsupported customer webhook topic: " ++ topic, none⟩

/-- `AppWebhookHandler.handleAppUninstalled`
(`src/src/webhooks/services/index.ts` lines 634-652): placeholder logic,
always succeeds. -/
def handleAppUninstalled (d : WebhookPayload) (_shop : String) : WebhookHandlerResult :=
  ⟨true, "App uninstallation webhook processed successfully",
    some ⟨d.id, "uninstalled", none, none⟩⟩

/-- `AppWebhookHandler.handle` (lines 608-632; identically in
`src/unnamed/part_001` lines 342-366). -/
def appHandle (d : WebhookPayload) (req : WebhookRequest) : WebhookHandlerResult :=
  let topic := orUnknown req.webhookTopic
  let shop := orUnknown req.webhookShop
  if topic = WEBHOOK_TOPICS.APP_UNINSTALLED then handleAppUninstalled d shop
  else ⟨false, "Unsupported app webhook topic: " ++ topic, none⟩

/-- The four handler families registered by the
`WebhookHandlerRegistry` constructor
(`src/src/webhooks/services/index.ts` lines 661-667). -/
inductive RegisteredHandler where
  | products
  | orders
  | customers
  | app
deriving DecidableEq, Repr

/-- The registry's handler map after construction: the four default
registrations keyed by topic family. -/
def registryLookup (k : String) : Option RegisteredHandler :=
  if k = "products" then some .products
  else if k = "orders" then some .orders
  else if k = "customers" then some .customers
  else if k = "app" then some .app
  else none

/-- Dispatch to the `handle` method of the selected family. -/
def dispatchHandler (c : Clients) (h : RegisteredHandler) (d : WebhookPayload)
    (req : WebhookRequest) : WebhookHandlerResult :=
  match h with
  | .products => productHandle c.getProduct d req
  | .orders => orderHandle c.getOrder d req
  | .customers => customerHandle c.getCustomer d req
  | .app => appHandle d req

/-- The routing key of `WebhookHandlerRegistry.handleWebhook`:
`topic.split('/')[0] || 'unknown'`.  Element 0 of the split is the
longest slash-free initial segment of the topic, computed here over the
character list so that it evaluates on literals. -/
def topicRoutingKey (topic : String) : String :=
  let hd := (topic.toList.takeWhile (fun ch => ch ≠ '/')).asString
  if hd = "" then "unknown" else hd

/-- `WebhookHandlerRegistry.handleWebhook`
(`src/src/webhooks/services/index.ts` lines 673-686; identically in
`src/unnamed/part_001` lines 407-420): split the topic on `/`, look the
family up in the registry, and return a structured failure when no
handler is registered for the family. -/
def handleWebhook (c : Clients) (d : WebhookPayload) (req : WebhookRequest) :
    WebhookHandlerResult :=
  let topic := orUnknown req.webhookTopic
  match registryLookup (topicRoutingKey topic) with
  | none => ⟨false, "No handler found for webhook topic: " ++ topic, none⟩
  | some h => dispatchHandler c h d req

/-- Clients whose every call throws; the registry-level claims do not
depend on client behaviour. -/
def noClients : Clients :=
  ⟨fun _ => .threw "no client", fun _ => .threw "no client", fun _ => .threw "no client"⟩

/-- `TokenData` as used by `WebhookService`: the stored access token. -/
structure TokenData where
  accessToken : String

/-- Outcome of `tokenService.getToken(shopDomain)`: a value (possibly
null) or a thrown error. -/
inductive TokenOutcome where
  | ok (t : Option TokenData)
  | threw (msg : String)

/-- `ShopifyWebhook` from `src/src/services/webhook.service.ts` lines
18-29 (optional field lists omitted; the service never reads them). -/
structure ShopifyWebhook where
  id : ℕ
  address : String
  topic : String
  format : String
  created_at : String
  updated_at : String
deriving DecidableEq, Repr

/-- The JSON body shapes the service reads off responses: a `webhook`
object or a `webhooks` array, each possibly absent (the casts at lines
93, 142, 237 are unchecked). -/
structure JsonBody where
  webhook : Option ShopifyWebhook
  webhooks : Option (List ShopifyWebhook)
deriving DecidableEq, Repr

/-- The `{}` fallback produced by `response.json().catch(() => ({}))`. -/
def emptyBody : JsonBody := ⟨none, none⟩

/-- An HTTP response as consumed by the service: `ok` flag, status,
status text, and the parsed JSON body — `none` models `response.json()`
throwing. -/
structure HttpResponse where
  ok : Bool
  status : ℕ
  statusText : String
  body : Option JsonBody

/-- Outcome of one `fetch` call: a response or a thrown error. -/
inductive HttpOutcome where
  | ok (r : HttpResponse)
  | threw (msg : String)

/-- The values the service stores in a `WebhookApiResponse`'s `data`
field: a webhook, a webhook list, or the raw error body forwarded on a
non-ok response (`data: errorData as any`). -/
inductive ApiData where
  | webhook (w : ShopifyWebhook)
  | webhookList (ws : List ShopifyWebhook)
  | raw (b : JsonBody)
deriving DecidableEq, Repr

/-- `WebhookApiResponse<T>` from `src/src/services/webhook.service.ts`
lines 31-36. -/
structure WebhookApiResponse where
  success : Bool
  data : Option ApiData
  error : Option String
  message : Option String
deriving DecidableEq, Repr

/-- `WebhookRegistration` from `src/src/services/webhook.service.ts`
lines 9-16 (optional field lists omitted; the service only serializes
the value into the request body). -/
structure WebhookRegistration where
  topic : String
  address : String

/-- The response returned by every operation when the token store holds
no token for the shop (`webhook.service.ts` lines 64-69 and peers). -/
def noTokenResponse (shopDomain : String) : WebhookApiResponse :=
  ⟨false, none, some "No access token found",
    some ("No valid access token found for shop: " ++ shopDomain ++ ". Please reinstall the app.")⟩

/-- `WebhookService.registerWebhook` (`webhook.service.ts` lines 58-107),
with the token store and `fetch` (keyed by URL) as oracles.  Returns the
structured response together with the number of HTTP requests issued. -/
def registerWebhook (getToken : String → TokenOutcome) (doFetch : String → HttpOutcome)
    (apiVersion : String) (shopDomain : String) (_webhookData : WebhookRegistration) :
    WebhookApiResponse × ℕ :=
  match getToken shopDomain with
  | .threw _ => (⟨false, none, some "Internal server error", some "Failed to register webhook"⟩, 0)
  | .ok none => (noTokenResponse shopDomain, 0)
  | .ok (some _) =>
    match doFetch ("https://" ++ shopDomain ++ "/admin/api/" ++ apiVersion ++ "/webhooks.json") with
    | .threw _ =>
      (⟨false, none, some "Internal server error", some "Failed to register webhook"⟩, 1)
    | .ok resp =>
      if resp.ok then
        match resp.body with
        | none =>
          (⟨false, none, some "Internal server error", some "Failed to register webhook"⟩, 1)
        | some b =>
          (⟨true, b.webhook.map ApiData.webhook, none, some "Webhook registered successfully"⟩, 1)
      else
        (⟨false, some (.raw (resp.body.getD emptyBody)), some "Webhook registration failed",
          some ("Failed to register webhook: " ++ toString resp.status ++ " " ++ resp.statusText)⟩, 1)

/-- `WebhookService.listWebhooks` (`webhook.service.ts` lines 112-156). -/
def listWebhooks (getToken : String → TokenOutcome) (doFetch : String → HttpOutcome)
    (apiVersion : String) (shopDomain : String) : WebhookApiResponse × ℕ :=
  match getToken shopDomain with
  | .threw _ => (⟨false, none, some "Internal server error", some "Failed to list webhooks"⟩, 0)
  | .ok none => (noTokenResponse shopDomain, 0)
  | .ok (some _) =>
    match doFetch ("https://" ++ shopDomain ++ "/admin/api/" ++ apiVersion ++ "/webhooks.json") with
    | .threw _ =>
      (⟨false, none, some "Internal server error", some "Failed to list webhooks"⟩, 1)
    | .ok resp =>
      if resp.ok then
        match resp.body with
        | none =>
          (⟨false, none, some "Internal server error", some "Failed to list webhooks"⟩, 1)
        | some b =>
          (⟨true, b.webhooks.map ApiData.webhookList, none,
            some "Webhooks retrieved successfully"⟩, 1)
      else
        (⟨false, some (.raw (resp.body.getD emptyBody)), some "Failed to list webhooks",
          some ("Failed to list webhooks: " ++ toString resp.status ++ " " ++ resp.statusText)⟩, 1)

/-- `WebhookService.deleteWebhook` (`webhook.service.ts` lines 161-202);
the success path reads no body, and the failure path swallows body-parse
errors locally. -/
def deleteWebhook (getToken : String → TokenOutcome) (doFetch : String → HttpOutcome)
    (apiVersion : String) (shopDomain : String) (webhookId : ℕ) : WebhookApiResponse × ℕ :=
  match getToken shopDomain with
  | .threw _ => (⟨false, none, some "Internal server error", some "Failed to delete webhook"⟩, 0)
  | .ok none => (noTokenResponse shopDomain, 0)
  | .ok (some _) =>
    match doFetch ("https://" ++ shopDomain ++ "/admin/api/" ++ apiVersion ++ "/webhooks/"
        ++ toString webhookId ++ ".json") with
    | .threw _ =>
      (⟨false, none, some "Internal server error", some "Failed to delete webhook"⟩, 1)
    | .ok resp =>
      if resp.ok then
        (⟨true, none, none, some "Webhook deleted successfully"⟩, 1)
      else
        (⟨false, none, some "Failed to delete webhook",
          some ("Failed to delete webhook: " ++ toString resp.status ++ " " ++ resp.statusText)⟩, 1)

/-- `WebhookService.getWebhook` (`webhook.service.ts` lines 207-251). -/
def getWebhook (getToken : String → TokenOutcome) (doFetch : String → HttpOutcome)
    (apiVersion : String) (shopDomain : String) (webhookId : ℕ) : WebhookApiResponse × ℕ :=
  match getToken shopDomain with
  | .threw _ => (⟨false, none, some "Internal server error", some "Failed to retrieve webhook"⟩, 0)
  | .ok none => (noTokenResponse shopDomain, 0)
  | .ok (some _) =>
    match doFetch ("https://" ++ shopDomain ++ "/admin/api/" ++ apiVersion ++ "/webhooks/"
        ++ toString webhookId ++ ".json") with
    | .threw _ =>
      (⟨false, none, some "Internal server error", some "Failed to retrieve webhook"⟩, 1)
    | .ok resp =>
      if resp.ok then
        match resp.body with
        | none =>
          (⟨false, none, some "Internal server error", some "Failed to retrieve webhook"⟩, 1)
        | some b =>
          (⟨true, b.webhook.map ApiData.webhook, none, some "Webhook retrieved successfully"⟩, 1)
      else
        (⟨false, some (.raw (resp.body.getD emptyBody)), some "Failed to get webhook",
          some ("Failed to get webhook: " ++ toString resp.status ++ " " ++ resp.statusText)⟩, 1)

theorem shouldRetry_lt_maxRetries (e : OpError) (r : ℕ) (config : ThrottlingConfig)
    (h : shouldRetry e r config = true) : r < config.maxRetries := by
  by_contra hge
  have hle : config.maxRetries ≤ r := Nat.le_of_not_lt hge
  unfold shouldRetry at h
  rw [if_pos hle] at h
  exact Bool.false_ne_true h

theorem execAux_inv {T : Type} (op : ℕ → OpOutcome T) (js : ℕ → ℚ) (config : ThrottlingConfig)
    (i : ℕ) (acc : ℚ) :
    ((execAux op js config i acc).1.success = true ↔ (execAux op js config i acc).1.error = none)
    ∧ (execAux op js config i acc).1.data.isSome = (execAux op js config i acc).1.success
    ∧ i ≤ (execAux op js config i acc).1.retryCount
    ∧ (execAux op js config i acc).1.retryCount ≤ max i config.maxRetries
    ∧ (execAux op js config i acc).2.1.length = (execAux op js config i acc).1.retryCount - i
    ∧ (execAux op js config i acc).2.2 = (execAux op js config i acc).1.retryCount - i + 1 := by
  induction i, acc using execAux.induct op js config with
  | case1 i acc d info heq =>
    rw [execAux, heq]
    simp
  | case2 i acc e heq h d ih =>
    rw [execAux, heq]
    dsimp only
    rw [dif_pos h]
    have hlt := shouldRetry_lt_maxRetries e i config h
    simp only [List.length_cons]
    have hd : d = computeWaitDelay e i config (js i) := rfl
    rw [hd] at ih
    obtain ⟨ih1, ih2, ih3, ih4, ih5, ih6⟩ := ih
    refine ⟨ih1, ih2, by omega, by omega, by omega, by omega⟩
  | case3 i acc e heq h =>
    rw [execAux, heq]
    dsimp only
    rw [dif_neg h]
    simp

/-- C1: one invocation of the Throttling Executor performs at most
`config.maxRetries` sleeps, terminates after at most `maxRetries + 1`
attempts of the operation, and the returned `ThrottlingResult` satisfies
`retryCount <= config.maxRetries` — for every operation, jitter source
and effective configuration. -/
theorem executeWithThrottling_bounded {T : Type} (op : ℕ → OpOutcome T) (js : ℕ → ℚ)
    (config : ThrottlingConfig) :
    (executeWithThrottling op js config).2.1.length ≤ config.maxRetries
    ∧ (executeWithThrottling op js config).2.2 ≤ config.maxRetries + 1
    ∧ (executeWithThrottling op js config).1.retryCount ≤ config.maxRetries := by
  have h := execAux_inv op js config 0 0
  obtain ⟨-, -, -, h4, h5, h6⟩ := h
  rw [executeWithThrottling]
  simp only [Nat.zero_le, max_eq_right, Nat.sub_zero] at h4 h5 h6
  omega

/-- C3: in every `ThrottlingResult` returned by `executeWithThrottling`,
`success` and `error` are mutually exclusive — `success = true` iff the
`error` field is absent — and `data` is present iff `success` is true. -/
theorem executeWithThrottling_exclusive {T : Type} (op : ℕ → OpOutcome T) (js : ℕ → ℚ)
    (config : ThrottlingConfig) :
    ((executeWithThrottling op js config).1.success = true
      ↔ (executeWithThrottling op js config).1.error = none)
    ∧ (executeWithThrottling op js config).1.data.isSome
        = (executeWithThrottling op js config).1.success := by
  have h := execAux_inv op js config 0 0
  exact ⟨h.1, h.2.1⟩

/-- C2: with `jitter = false`, `calculateBackoffDelay` is exactly
`min(config.maxDelay, config.baseDelay * config.backoffMultiplier ^
retryCount)`, independent of the jitter source; with `jitter = true` it is
that formula multiplied by the drawn factor `j` in `[0.5, 1.0]`; in all
cases the delay is non-negative and at most `config.maxDelay`.  The
well-formedness bounds of the data model (section 3: `baseDelay > 0`,
`maxDelay ≥ baseDelay`, `backoffMultiplier > 1`) are hypotheses. -/
theorem calculateBackoffDelay_spec (retryCount : ℕ) (config : ThrottlingConfig) (j : ℚ)
    (hb : 0 < config.baseDelay) (hd : config.baseDelay ≤ config.maxDelay)
    (hm : 1 < config.backoffMultiplier) (hj : config.jitter = true → 1 / 2 ≤ j ∧ j ≤ 1) :
    (config.jitter = false → calculateBackoffDelay retryCount config j
      = min config.maxDelay (config.baseDelay * config.backoffMultiplier ^ retryCount))
    ∧ (config.jitter = true → calculateBackoffDelay retryCount config j
      = min config.maxDelay (config.baseDelay * config.backoffMultiplier ^ retryCount) * j)
    ∧ 0 ≤ calculateBackoffDelay retryCount config j
    ∧ calculateBackoffDelay retryCount config j ≤ config.maxDelay := by
  have hbase : 0 ≤ min config.maxDelay (config.baseDelay * config.backoffMultiplier ^ retryCount) := by
    apply le_min
    · linarith
    · have : (0:ℚ) ≤ config.backoffMultiplier ^ retryCount :=
        pow_nonneg (by linarith) retryCount
      positivity
  have hminle : min config.maxDelay (config.baseDelay * config.backoffMultiplier ^ retryCount)
      ≤ config.maxDelay := min_le_left _ _
  refine ⟨?_, ?_, ?_, ?_⟩
  · intro hjf
    simp [calculateBackoffDelay, hjf]
  · intro hjt
    simp [calculateBackoffDelay, hjt]
  · rcases hjc : config.jitter with _ | _
    · simp only [calculateBackoffDelay, hjc]
      simp only [Bool.false_eq_true, if_false]
      exact hbase
    · obtain ⟨hj1, hj2⟩ := hj hjc
      have hjnn : (0:ℚ) ≤ j := by linarith
      simp only [calculateBackoffDelay, hjc, if_true]
      exact mul_nonneg hbase hjnn
  · rcases hjc : config.jitter with _ | _
    · simp only [calculateBackoffDelay, hjc]
      simp only [Bool.false_eq_true, if_false]
      exact hminle
    · obtain ⟨hj1, hj2⟩ := hj hjc
      simp only [calculateBackoffDelay, hjc, if_true]
      calc min config.maxDelay (config.baseDelay * config.backoffMultiplier ^ retryCount) * j
          ≤ min config.maxDelay (config.baseDelay * config.backoffMultiplier ^ retryCount) * 1 :=
            mul_le_mul_of_nonneg_left hj2 hbase
        _ ≤ config.maxDelay := by rw [mul_one]; exact hminle

theorem calculateBackoffDelay_spec_witness :
    calculateBackoffDelay 2 sampleConfig 1 ≤ sampleConfig.maxDelay :=
  (calculateBackoffDelay_spec 2 sampleConfig 1 (by norm_num [sampleConfig])
    (by norm_num [sampleConfig]) (by norm_num [sampleConfig])
    (by intro hc; simp [sampleConfig] at hc)).2.2.2

/-- C4: `shouldRetry` returns false whenever `retryCount >=
config.maxRetries` or the config is disabled; and every error classified
non-retryable by section 4.3 — validation errors, auth errors, and HTTP
4xx statuses other than 429 under the canonical retryable status code set
— is refused for every retry count. -/
theorem shouldRetry_spec (e : OpError) (retryCount : ℕ) (config : ThrottlingConfig) :
    (config.maxRetries ≤ retryCount → shouldRetry e retryCount config = false)
    ∧ (config.enabled = false → shouldRetry e retryCount config = false)
    ∧ (e.kind = .validation → shouldRetry e retryCount config = false)
    ∧ (e.kind = .auth → shouldRetry e retryCount config = false)
    ∧ (∀ s, e.kind = .http s → 400 ≤ s → s < 500 → s ≠ 429 →
        config.retryableStatusCodes = [429, 500, 502, 503, 504] →
        shouldRetry e retryCount config = false) := by
  refine ⟨?_, ?_, ?_, ?_, ?_⟩
  · intro hge
    simp [shouldRetry, if_pos hge]
  · intro hdis
    unfold shouldRetry
    rcases le_or_lt config.maxRetries retryCount with hge | hlt
    · rw [if_pos hge]
    · rw [if_neg (Nat.not_le_of_lt hlt), hdis]
      simp
  · intro hv
    unfold shouldRetry
    rw [hv]
    rcases le_or_lt config.maxRetries retryCount with hge | hlt
    · rw [if_pos hge]
    · rw [if_neg (Nat.not_le_of_lt hlt)]
      rcases config.enabled with _ | _ <;> simp
  · intro ha
    unfold shouldRetry
    rw [ha]
    rcases le_or_lt config.maxRetries retryCount with hge | hlt
    · rw [if_pos hge]
    · rw [if_neg (Nat.not_le_of_lt hlt)]
      rcases config.enabled with _ | _ <;> simp
  · intro s hs h400 h500 h429 hcodes
    unfold shouldRetry
    rw [hs, hcodes]
    rcases le_or_lt config.maxRetries retryCount with hge | hlt
    · rw [if_pos hge]
    · rw [if_neg (Nat.not_le_of_lt hlt)]
      rcases config.enabled with _ | _
      · simp
      · simp only [Bool.not_true, if_false, Bool.false_eq_true]
        simp only [List.contains_eq_any_beq, List.any_cons, List.any_nil, Bool.or_false,
          Bool.or_eq_false_iff, beq_eq_false_iff_ne, ne_eq]
        omega

theorem shouldRetry_spec_witness :
    shouldRetry ⟨.validation, none⟩ 0 sampleConfig = false
    ∧ shouldRetry ⟨.auth, none⟩ 0 sampleConfig = false
    ∧ shouldRetry ⟨.http 404, none⟩ 0 sampleConfig = false :=
  ⟨(shouldRetry_spec ⟨.validation, none⟩ 0 sampleConfig).2.2.1 rfl,
   (shouldRetry_spec ⟨.auth, none⟩ 0 sampleConfig).2.2.2.1 rfl,
   (shouldRetry_spec ⟨.http 404, none⟩ 0 sampleConfig).2.2.2.2 404 rfl (by norm_num)
     (by norm_num) (by norm_num) rfl⟩

/-- C5: when a failure carries parsed `RateLimitInfo` with
`currentlyAvailable < requestedQueryCost` and remote rate limits are
respected, the delay the executor sleeps before the next attempt — the
executor's first sleep is exactly `computeWaitDelay` of the failure — is
at least the time (in ms) for the remote bucket to refill the missing
cost at `restoreRate` units per second, even when the exponential backoff
delay alone is smaller. -/
theorem computeWaitDelay_respects_remote {T : Type} (op : ℕ → OpOutcome T) (js : ℕ → ℚ)
    (config : ThrottlingConfig) (e : OpError) (info : RateLimitInfo)
    (hop : op 0 = .failure e) (hinfo : e.rateLimitInfo = some info)
    (hresp : config.respectShopifyRateLimits = true)
    (hlow : info.throttleStatus.currentlyAvailable < info.requestedQueryCost)
    (hretry : shouldRetry e 0 config = true) :
    computeWaitDelay e 0 config (js 0)
      ≥ (info.requestedQueryCost - info.throttleStatus.currentlyAvailable)
        / info.throttleStatus.restoreRate * 1000
    ∧ ∃ rest, (executeWithThrottling op js config).2.1
        = computeWaitDelay e 0 config (js 0) :: rest := by
  constructor
  · unfold computeWaitDelay
    rw [hinfo]
    simp only [hresp]
    rw [if_pos ⟨trivial, hlow⟩]
    exact le_max_right _ _
  · rw [executeWithThrottling, execAux, hop]
    dsimp only
    rw [dif_pos hretry]
    exact ⟨_, rfl⟩

theorem computeWaitDelay_respects_remote_witness :
    computeWaitDelay throttleErrScenario 0 sampleConfig 1 ≥ 2000 := by
  have h := (computeWaitDelay_respects_remote (T := Unit)
    (fun _ => .failure throttleErrScenario) (fun _ => 1) sampleConfig
    throttleErrScenario throttleInfoScenario rfl rfl rfl
    (by norm_num [throttleInfoScenario]) (by decide)).1
  norm_num [throttleInfoScenario] at h
  exact h

/-- C6: the Rate-Limit Parser yields either a fully populated
`RateLimitInfo` or none: it returns none exactly when one of the five
numeric fields is missing or fails to parse, and when it returns a value
every field of that value is the successfully parsed field. -/
theorem parseRateLimitHeaders_all_or_nothing (inp : RateLimitInput) :
    (parseRateLimitHeaders inp = none ↔
      ((rawRateLimitFields inp).1 = none ∨ (rawRateLimitFields inp).2.1 = none
        ∨ (rawRateLimitFields inp).2.2.1 = none ∨ (rawRateLimitFields inp).2.2.2.1 = none
        ∨ (rawRateLimitFields inp).2.2.2.2 = none))
    ∧ (∀ info, parseRateLimitHeaders inp = some info →
        rawRateLimitFields inp
          = (some info.requestedQueryCost, some info.actualQueryCost,
             some info.throttleStatus.maximumAvailable,
             some info.throttleStatus.currentlyAvailable,
             some info.throttleStatus.restoreRate)) := by
  rcases hraw : rawRateLimitFields inp with ⟨f1, f2, f3, f4, f5⟩
  simp only [parseRateLimitHeaders, hraw]
  rcases f1 with _ | q1 <;> rcases f2 with _ | q2 <;> rcases f3 with _ | q3 <;>
    rcases f4 with _ | q4 <;> rcases f5 with _ | q5 <;> simp

theorem parseRateLimitHeaders_all_or_nothing_witness :
    parseRateLimitHeaders (.headers []) = none
    ∧ rawRateLimitFields
        (.extensions (some 10) (some 8) (some 1000) (some 950) (some 50))
        = (some 10, some 8, some 1000, some 950, some 50) :=
  ⟨(parseRateLimitHeaders_all_or_nothing (.headers [])).1.mpr (Or.inl rfl),
   (parseRateLimitHeaders_all_or_nothing
      (.extensions (some 10) (some 8) (some 1000) (some 950) (some 50))).2
      ⟨10, 8, ⟨1000, 950, 50⟩⟩ rfl⟩

/-- C7: `handleWebhook` routes by the `/`-split topic family: whenever
the routing key resolves to a registered handler the request is
dispatched to it, and whenever no handler is registered for the key the
result is a structured failure carrying a message — a returned value, so
no exception crosses the registry boundary. -/
theorem handleWebhook_dispatch (c : Clients) (d : WebhookPayload) (req : WebhookRequest) :
    (registryLookup (topicRoutingKey (orUnknown req.webhookTopic)) = none →
      handleWebhook c d req
        = ⟨false, "No handler found for webhook topic: " ++ orUnknown req.webhookTopic, none⟩)
    ∧ (∀ h, registryLookup (topicRoutingKey (orUnknown req.webhookTopic)) = some h →
      handleWebhook c d req = dispatchHandler c h d req) := by
  constructor
  · intro hnone
    simp only [handleWebhook, hnone]
  · intro h hsome
    simp only [handleWebhook, hsome]

theorem handleWebhook_dispatch_witness :
    handleWebhook noClients ⟨1⟩ ⟨some "bogus/create", some "shop.example.com"⟩
      = ⟨false, "No handler found for webhook topic: bogus/create", none⟩ :=
  (handleWebhook_dispatch noClients ⟨1⟩ ⟨some "bogus/create", some "shop.example.com"⟩).1 (by rfl)

/-- C8: when the enrichment fetch of a `products/create` webhook fails —
the GraphQL `getProduct` call returns without success, or without a data
envelope, or without product data — the handler still accepts the
webhook: `success = true` with `synchronized := false` in its data. -/
theorem handleProductCreate_acceptedWithoutSync (getProduct : String → FetchOutcome)
    (d : WebhookPayload) (shop : String) (r : ClientResult)
    (hr : getProduct ("gid://shopify/Product/" ++ toString d.id) = .ok r)
    (hfail : ¬(r.success = true ∧ ∃ resp gd p, r.data = some resp
        ∧ resp.data = some gd ∧ gd.product = some p)) :
    handleProductCreate getProduct d shop
      = ⟨true, "Product creation webhook processed (data sync failed)",
          some ⟨d.id, "created", some false, none⟩⟩ := by
  unfold handleProductCreate
  rw [hr]
  rcases hs : r.success with _ | _
  · rcases hd : r.data with _ | resp <;> simp [hs, hd]
  · rcases hd : r.data with _ | resp
    · simp [hs, hd]
    · rcases hgd : resp.data with _ | gd
      · simp [hs, hd, hgd]
      · rcases hp : gd.product with _ | p
        · simp [hs, hd, hgd, hp]
        · exact absurd ⟨hs, resp, gd, p, hd, hgd, hp⟩ hfail

theorem handleProductCreate_acceptedWithoutSync_witness :
    handleProductCreate (fun _ => .ok ⟨false, none, some "boom"⟩) ⟨42⟩ "shop.example.com"
      = ⟨true, "Product creation webhook processed (data sync failed)",
          some ⟨42, "created", some false, none⟩⟩ :=
  handleProductCreate_acceptedWithoutSync (fun _ => .ok ⟨false, none, some "boom"⟩)
    ⟨42⟩ "shop.example.com" ⟨false, none, some "boom"⟩ rfl (by simp)

/-- C10: a webhook whose topic family is registered but whose full topic
is not supported by that family is answered by the family handler with a
structured `success = false` result and an unsupported-topic message —
for each of the four registered families (`ProductWebhookHandler`,
`OrderWebhookHandler`, `CustomerWebhookHandler`, `AppWebhookHandler`). -/
theorem handleWebhook_unsupported_family_topic (c : Clients) (d : WebhookPayload)
    (req : WebhookRequest) :
    (topicRoutingKey (orUnknown req.webhookTopic) = "products" →
      orUnknown req.webhookTopic ≠ WEBHOOK_TOPICS.PRODUCTS_CREATE →
      orUnknown req.webhookTopic ≠ WEBHOOK_TOPICS.PRODUCTS_UPDATE →
      orUnknown req.webhookTopic ≠ WEBHOOK_TOPICS.PRODUCTS_DELETE →
      handleWebhook c d req
        = ⟨false, "Unsupported product webhook topic: " ++ orUnknown req.webhookTopic, none⟩)
    ∧ (topicRoutingKey (orUnknown req.webhookTopic) = "orders" →
      orUnknown req.webhookTopic ≠ WEBHOOK_TOPICS.ORDERS_CREATE →
      orUnknown req.webhookTopic ≠ WEBHOOK_TOPICS.ORDERS_UPDATED →
      orUnknown req.webhookTopic ≠ WEBHOOK_TOPICS.ORDERS_PAID →
      orUnknown req.webhookTopic ≠ WEBHOOK_TOPICS.ORDERS_CANCELLED →
      orUnknown req.webhookTopic ≠ WEBHOOK_TOPICS.ORDERS_FULFILLED →
      handleWebhook c d req
        = ⟨false, "Unsupported order webhook topic: " ++ orUnknown req.webhookTopic, none⟩)
    ∧ (topicRoutingKey (orUnknown req.webhookTopic) = "customers" →
      orUnknown req.webhookTopic ≠ WEBHOOK_TOPICS.CUSTOMERS_CREATE →
      orUnknown req.webhookTopic ≠ WEBHOOK_TOPICS.CUSTOMERS_UPDATE →
      handleWebhook c d req
        = ⟨false, "Unsupported customer webhook topic: " ++ orUnknown req.webhookTopic, none⟩)
    ∧ (topicRoutingKey (orUnknown req.webhookTopic) = "app" →
      orUnknown req.webhookTopic ≠ WEBHOOK_TOPICS.APP_UNINSTALLED →
      handleWebhook c d req
        = ⟨false, "Unsupported app webhook topic: " ++ orUnknown req.webhookTopic, none⟩) := by
  refine ⟨?_, ?_, ?_, ?_⟩
  · intro hk h1 h2 h3
    simp only [handleWebhook, hk]
    rw [show registryLookup "products" = some RegisteredHandler.products from rfl]
    simp only [dispatchHandler, productHandle]
    rw [if_neg h1, if_neg h2, if_neg h3]
  · intro hk h1 h2 h3 h4 h5
    simp only [handleWebhook, hk]
    rw [show registryLookup "orders" = some RegisteredHandler.orders from rfl]
    simp only [dispatchHandler, orderHandle]
    rw [if_neg h1, if_neg h2, if_neg h3, if_neg h4, if_neg h5]
  · intro hk h1 h2
    simp only [handleWebhook, hk]
    rw [show registryLookup "customers" = some RegisteredHandler.customers from rfl]
    simp only [dispatchHandler, customerHandle]
    rw [if_neg h1, if_neg h2]
  · intro hk h1
    simp only [handleWebhook, hk]
    rw [show registryLookup "app" = some RegisteredHandler.app from rfl]
    simp only [dispatchHandler, appHandle]
    rw [if_neg h1]

theorem handleWebhook_unsupported_family_topic_witness :
    handleWebhook noClients ⟨1⟩ ⟨some "products/restock", some "shop.example.com"⟩
      = ⟨false, "Unsupported product webhook topic: products/restock", none⟩
    ∧ handleWebhook noClients ⟨1⟩ ⟨some "orders/restock", some "shop.example.com"⟩
      = ⟨false, "Unsupported order webhook topic: orders/restock", none⟩
    ∧ handleWebhook noClients ⟨1⟩ ⟨some "customers/delete", some "shop.example.com"⟩
      = ⟨false, "Unsupported customer webhook topic: customers/delete", none⟩
    ∧ handleWebhook noClients ⟨1⟩ ⟨some "app/updated", some "shop.example.com"⟩
      = ⟨false, "Unsupported app webhook topic: app/updated", none⟩ :=
  ⟨(handleWebhook_unsupported_family_topic noClients ⟨1⟩
      ⟨some "products/restock", some "shop.example.com"⟩).1 (by rfl)
      (by decide) (by decide) (by decide),
   (handleWebhook_unsupported_family_topic noClients ⟨1⟩
      ⟨some "orders/restock", some "shop.example.com"⟩).2.1 (by rfl)
      (by decide) (by decide) (by decide) (by decide) (by decide),
   (handleWebhook_unsupported_family_topic noClients ⟨1⟩
      ⟨some "customers/delete", some "shop.example.com"⟩).2.2.1 (by rfl)
      (by decide) (by decide),
   (handleWebhook_unsupported_family_topic noClients ⟨1⟩
      ⟨some "app/updated", some "shop.example.com"⟩).2.2.2 (by rfl) (by decide)⟩

/-- C9: every `WebhookService` operation returns a structured
`WebhookApiResponse` on every path — each possible token-store or fetch
outcome, thrown errors included, yields either success or a response
carrying an error string — and whenever the token store returns null for
the shop the operation returns the `No access token found` failure
having issued no HTTP request. -/
theorem webhookService_structured (getToken : String → TokenOutcome)
    (doFetch : String → HttpOutcome) (apiVersion shopDomain : String)
    (wd : WebhookRegistration) (webhookId : ℕ) :
    (getToken shopDomain = .ok none →
      registerWebhook getToken doFetch apiVersion shopDomain wd = (noTokenResponse shopDomain, 0)
      ∧ listWebhooks getToken doFetch apiVersion shopDomain = (noTokenResponse shopDomain, 0)
      ∧ deleteWebhook getToken doFetch apiVersion shopDomain webhookId
          = (noTokenResponse shopDomain, 0)
      ∧ getWebhook getToken doFetch apiVersion shopDomain webhookId
          = (noTokenResponse shopDomain, 0))
    ∧ ((registerWebhook getToken doFetch apiVersion shopDomain wd).1.success = true
        ∨ (registerWebhook getToken doFetch apiVersion shopDomain wd).1.error.isSome)
    ∧ ((listWebhooks getToken doFetch apiVersion shopDomain).1.success = true
        ∨ (listWebhooks getToken doFetch apiVersion shopDomain).1.error.isSome)
    ∧ ((deleteWebhook getToken doFetch apiVersion shopDomain webhookId).1.success = true
        ∨ (deleteWebhook getToken doFetch apiVersion shopDomain webhookId).1.error.isSome)
    ∧ ((getWebhook getToken doFetch apiVersion shopDomain webhookId).1.success = true
        ∨ (getWebhook getToken doFetch apiVersion shopDomain webhookId).1.error.isSome) := by
  refine ⟨?_, ?_, ?_, ?_, ?_⟩
  · intro h0
    refine ⟨?_, ?_, ?_, ?_⟩ <;>
      simp [registerWebhook, listWebhooks, deleteWebhook, getWebhook, h0]
  · rcases htok : getToken shopDomain with t | m
    · rcases t with _ | tok
      · simp [registerWebhook, htok, noTokenResponse]
      · rcases hf : doFetch ("https://" ++ shopDomain ++ "/admin/api/" ++ apiVersion
            ++ "/webhooks.json") with resp | m2
        · rcases hok : resp.ok with _ | _
          · simp [registerWebhook, htok, hf, hok]
          · rcases hb : resp.body with _ | b <;> simp [registerWebhook, htok, hf, hok, hb]
        · simp [registerWebhook, htok, hf]
    · simp [registerWebhook, htok]
  · rcases htok : getToken shopDomain with t | m
    · rcases t with _ | tok
      · simp [listWebhooks, htok, noTokenResponse]
      · rcases hf : doFetch ("https://" ++ shopDomain ++ "/admin/api/" ++ apiVersion
            ++ "/webhooks.json") with resp | m2
        · rcases hok : resp.ok with _ | _
          · simp [listWebhooks, htok, hf, hok]
          · rcases hb : resp.body with _ | b <;> simp [listWebhooks, htok, hf, hok, hb]
        · simp [listWebhooks, htok, hf]
    · simp [listWebhooks, htok]
  · rcases htok : getToken shopDomain with t | m
    · rcases t with _ | tok
      · simp [deleteWebhook, htok, noTokenResponse]
      · rcases hf : doFetch ("https://" ++ shopDomain ++ "/admin/api/" ++ apiVersion
            ++ "/webhooks/" ++ toString webhookId ++ ".json") with resp | m2
        · rcases hok : resp.ok with _ | _ <;> simp [deleteWebhook, htok, hf, hok]
        · simp [deleteWebhook, htok, hf]
    · simp [deleteWebhook, htok]
  · rcases htok : getToken shopDomain with t | m
    · rcases t with _ | tok
      · simp [getWebhook, htok, noTokenResponse]
      · rcases hf : doFetch ("https://" ++ shopDomain ++ "/admin/api/" ++ apiVersion
            ++ "/webhooks/" ++ toString webhookId ++ ".json") with resp | m2
        · rcases hok : resp.ok with _ | _
          · simp [getWebhook, htok, hf, hok]
          · rcases hb : resp.body with _ | b <;> simp [getWebhook, htok, hf, hok, hb]
        · simp [getWebhook, htok, hf]
    · simp [getWebhook, htok]

theorem webhookService_structured_witness :
    registerWebhook (fun _ => .ok none) (fun _ => .threw "network down") "2025-07"
        "shop.example.com" ⟨"products/create", "https://example.com/webhooks/products"⟩
      = (noTokenResponse "shop.example.com", 0)
    ∧ deleteWebhook (fun _ => .ok none) (fun _ => .threw "network down") "2025-07"
        "shop.example.com" 42
      = (noTokenResponse "shop.example.com", 0) := by
  have h := (webhookService_structured (fun _ => .ok none) (fun _ => .threw "network down")
    "2025-07" "shop.example.com" ⟨"products/create", "https://example.com/webhooks/products"⟩
    42).1 rfl
  exact ⟨h.1, h.2.2.1⟩
